import Mathlib

/-!
Verification of the jobboard backend (Django REST application `jobs`).

The data model is embedded from `jobs/models.py`, the serializer logic from
`jobs/serializers.py`, the view logic from `jobs/views.py`, the routing from
`jobs/urls.py` and the permission defaults from `jobboard/settings.py`.

Database tables are lists of rows; primary keys and foreign keys are `Nat`;
text columns are `String`; nullable columns are `Option`; operations that the
database or the ORM can abort (IntegrityError, MultipleObjectsReturned) return
`Except String`.
-/

namespace JobBoard

/- ===== Character-level string operations =====
Python's `str.lower` / `str.strip` and Django's `icontains` lookup are modelled
on the character list of a string, so that everything reduces in the kernel. -/

/-- Python `str.lower` on the characters of a string. -/
def lowerChars (s : List Char) : List Char := s.map Char.toLower

/-- Python `str.strip`: remove leading and trailing whitespace. -/
def stripChars (s : List Char) : List Char :=
  ((s.dropWhile Char.isWhitespace).reverse.dropWhile Char.isWhitespace).reverse

/-- Contiguous substring test: `subAt hay pat` is true iff `pat` occurs
contiguously inside `hay`. -/
def subAt : List Char → List Char → Bool
  | _, [] => true
  | [], _ :: _ => false
  | a :: as, b :: bs => (a == b && List.isPrefixOf bs as) || subAt as (b :: bs)

/-- Django's `field__icontains=value` lookup: case-insensitive containment. -/
def icontains (field value : String) : Bool :=
  subAt (lowerChars field.toList) (lowerChars value.toList)

/-- `name.strip().lower()` — the lookup key used by the skill get-or-create in
`UserProfileSerializer.update` / `UserProfileSerializer.create`. -/
def normalizeSkillName (s : String) : String := ⟨lowerChars (stripChars s.toList)⟩

/-- `name.strip()` — the `defaults` value used by the skill get-or-create. -/
def strippedSkillName (s : String) : String := ⟨stripChars s.toList⟩

/- ===== Skill model (models.py: Skill; unique name) ===== -/

/-- `Skill` row: `name` is a unique CharField. -/
structure Skill where
  id : Nat
  name : String
deriving DecidableEq, Repr

/-- The Skill table together with the auto-increment counter. -/
structure SkillTable where
  next_id : Nat
  rows : List Skill
deriving DecidableEq, Repr

/-- `Skill.objects.get_or_create(name=lookupName, defaults=...)` where the
`defaults` dict carries `name: defaultName`.  Django first runs
`get(name=lookupName)`; on a miss it builds the creation params from the
keyword arguments updated with `defaults`, so the row is created with
`name = defaultName`.  The unique constraint on `name` makes the insert raise
IntegrityError when a row named `defaultName` already exists, and since the
retry `get(name=lookupName)` still misses, the IntegrityError propagates. -/
def get_or_create_skill (t : SkillTable) (lookupName defaultName : String) :
    Except String (SkillTable × Skill) :=
  match t.rows.find? (fun s => s.name == lookupName) with
  | some s => Except.ok (t, s)
  | none =>
    if t.rows.any (fun s => s.name == defaultName) then Except.error "IntegrityError"
    else Except.ok (⟨t.next_id + 1, t.rows ++ [⟨t.next_id, defaultName⟩]⟩, ⟨t.next_id, defaultName⟩)

/-- The skill loop shared by `UserProfileSerializer.update` and
`UserProfileSerializer.create`: for each submitted name run
`get_or_create(name=name.strip().lower(), defaults={name: name.strip()})`
and collect the resulting Skill objects. -/
def processSkillNames (t : SkillTable) : List String → Except String (SkillTable × List Skill)
  | [] => Except.ok (t, [])
  | n :: rest =>
    match get_or_create_skill t (normalizeSkillName n) (strippedSkillName n) with
    | Except.error e => Except.error e
    | Except.ok (t', s) =>
      match processSkillNames t' rest with
      | Except.error e => Except.error e
      | Except.ok (t'', ss) => Except.ok (t'', s :: ss)

/- ===== UserProfile model (models.py: UserProfile) ===== -/

/-- `UserProfile` row; `user` is the OneToOneField to the owning User and
`skills` holds the ids of the associated Skill rows (the ManyToMany set). -/
structure UserProfile where
  id : Nat
  user : Nat
  bio : String
  phone_number : String
  skills : List Nat
  resume_url : Option String
  current_title : String
deriving DecidableEq, Repr

/-- The skill-handling tail of `UserProfileSerializer.update` /
`UserProfileSerializer.create`: when `skill_names` was submitted, run the
get-or-create loop and `instance.skills.set(skill_objects)`; otherwise leave
the profile's skill set alone. -/
def profileSetSkills (p : UserProfile) (t : SkillTable) (skill_names : Option (List String)) :
    Except String (UserProfile × SkillTable) :=
  match skill_names with
  | none => Except.ok (p, t)
  | some names =>
    match processSkillNames t names with
    | Except.error e => Except.error e
    | Except.ok (t', objs) =>
      Except.ok (⟨p.id, p.user, p.bio, p.phone_number, (objs.map Skill.id).dedup,
        p.resume_url, p.current_title⟩, t')

/- ===== Company and Job models (models.py: Company, Job) ===== -/

/-- `Company` row. -/
structure Company where
  id : Nat
  name : String
  description : Option String
  industry : Option Nat
  location : Option Nat
  website : Option String
  logo_url : Option String
deriving DecidableEq, Repr

/-- `Job` row; `category` is a nullable foreign key. -/
structure Job where
  id : Nat
  title : String
  description : String
  company : Nat
  location : Nat
  category : Option Nat
  job_type : Nat
  salary_min : Int
  salary_max : Int
  date_posted : Nat
  is_active : Bool
deriving DecidableEq, Repr

/-- The optional query parameters read by `JobViewSet.get_queryset`. -/
structure JobQueryParams where
  q : Option String
  category : Option Nat
  type : Option Nat
  location : Option Nat
deriving DecidableEq, Repr

/-- The `Q(title__icontains) | Q(description__icontains) |
Q(company__name__icontains)` disjunction of `JobViewSet.get_queryset`. -/
def jobMatchesQ (companies : List Company) (j : Job) (query : String) : Bool :=
  icontains j.title query || icontains j.description query ||
    companies.any (fun c => c.id == j.company && icontains c.name query)

/-- `JobViewSet.get_queryset`: start from `Job.objects.filter(is_active=True)`
(the class `queryset`) and narrow by each query parameter that was provided. -/
def JobViewSet.get_queryset (companies : List Company) (jobs : List Job)
    (p : JobQueryParams) : List Job :=
  let base := jobs.filter (fun j => j.is_active)
  let q1 := match p.q with
    | none => base
    | some s => base.filter (fun j => jobMatchesQ companies j s)
  let q2 := match p.category with
    | none => q1
    | some cid => q1.filter (fun j => j.category == some cid)
  let q3 := match p.type with
    | none => q2
    | some tid => q2.filter (fun j => j.job_type == tid)
  match p.location with
  | none => q3
  | some lid => q3.filter (fun j => j.location == lid)

/-- Job retrieve: DRF `get_object` looks the pk up inside `get_queryset()`. -/
def JobViewSet.retrieve (companies : List Company) (jobs : List Job)
    (p : JobQueryParams) (pk : Nat) : Option Job :=
  (JobViewSet.get_queryset companies jobs p).find? (fun j => j.id == pk)

/- ===== Application and SavedJob models (models.py) ===== -/

/-- `Application` row; `Meta.unique_together = ('job', 'applicant')`. -/
structure Application where
  id : Nat
  job : Nat
  applicant : Nat
  date_applied : Nat
  status : String
  cover_letter : Option String
deriving DecidableEq, Repr

/-- `SavedJob` row; `Meta.unique_together = ('user', 'job')`. -/
structure SavedJob where
  id : Nat
  user : Nat
  job : Nat
  saved_at : Nat
deriving DecidableEq, Repr

/- ===== Ownership-scoped querysets (views.py) ===== -/

/-- `UserProfileViewSet.get_queryset`: profiles of the requesting user when it
is authenticated, the empty queryset otherwise. -/
def UserProfileViewSet.get_queryset (is_authenticated : Bool) (u : Nat)
    (t : List UserProfile) : List UserProfile :=
  if is_authenticated then t.filter (fun p => p.user == u) else []

/-- `ApplicationViewSet.get_queryset`: applications whose applicant is the
requesting user. -/
def ApplicationViewSet.get_queryset (u : Nat) (t : List Application) : List Application :=
  t.filter (fun a => a.applicant == u)

/-- `SavedJobViewSet.get_queryset`: saved jobs of the requesting user. -/
def SavedJobViewSet.get_queryset (u : Nat) (t : List SavedJob) : List SavedJob :=
  t.filter (fun s => s.user == u)

/-- Profile retrieve: DRF `get_object` looks the pk up inside `get_queryset()`. -/
def UserProfileViewSet.retrieve (is_authenticated : Bool) (u : Nat)
    (t : List UserProfile) (pk : Nat) : Option UserProfile :=
  (UserProfileViewSet.get_queryset is_authenticated u t).find? (fun p => p.id == pk)

/-- Application retrieve through the ownership-scoped queryset. -/
def ApplicationViewSet.retrieve (u : Nat) (t : List Application) (pk : Nat) :
    Option Application :=
  (ApplicationViewSet.get_queryset u t).find? (fun a => a.id == pk)

/-- SavedJob retrieve through the ownership-scoped queryset. -/
def SavedJobViewSet.retrieve (u : Nat) (t : List SavedJob) (pk : Nat) : Option SavedJob :=
  (SavedJobViewSet.get_queryset u t).find? (fun s => s.id == pk)

/- ===== The custom unsave action (views.py: SavedJobViewSet.unsave) ===== -/

/-- `SavedJobViewSet.unsave`: `SavedJob.objects.get(user=request.user,
job_id=job_id)` followed by `.delete()` and HTTP 204, or HTTP 404 when the
lookup raises `DoesNotExist`.  `get` on several matches raises
`MultipleObjectsReturned`; `.delete()` removes the row with that primary key.
The result pairs the new table with the HTTP status code. -/
def SavedJobViewSet.unsave (u job_id : Nat) (t : List SavedJob) :
    Except String (List SavedJob × Nat) :=
  match t.filter (fun r => r.user == u && r.job == job_id) with
  | [] => Except.ok (t, 404)
  | [r] => Except.ok (t.filter (fun x => x.id != r.id), 204)
  | _ => Except.error "MultipleObjectsReturned"

/- ===== Inserts honouring the unique_together constraints ===== -/

/-- Insert into the Application table; the database rejects a second row with
the same `(job, applicant)` pair (`Application.Meta.unique_together`). -/
def insertApplication (t : List Application) (a : Application) :
    Except String (List Application) :=
  if t.any (fun b => b.job == a.job && b.applicant == a.applicant) then
    Except.error "IntegrityError"
  else Except.ok (t ++ [a])

/-- Insert into the SavedJob table; the database rejects a second row with the
same `(user, job)` pair (`SavedJob.Meta.unique_together`). -/
def insertSavedJob (t : List SavedJob) (s : SavedJob) : Except String (List SavedJob) :=
  if t.any (fun b => b.user == s.user && b.job == s.job) then
    Except.error "IntegrityError"
  else Except.ok (t ++ [s])

/-- No two Application rows share a `(job, applicant)` pair. -/
abbrev appPairUnique (t : List Application) : Prop :=
  t.Pairwise (fun a b => ¬ (a.job = b.job ∧ a.applicant = b.applicant))

/-- No two SavedJob rows share a `(user, job)` pair. -/
abbrev savedPairUnique (t : List SavedJob) : Prop :=
  t.Pairwise (fun a b => ¬ (a.user = b.user ∧ a.job = b.job))

/-- SavedJob primary keys are pairwise distinct. -/
abbrev savedIdUnique (t : List SavedJob) : Prop :=
  t.Pairwise (fun a b => a.id ≠ b.id)

/- ===== Serializer input handling (serializers.py) ===== -/

/-- Client-supplied body of an application create/update request.  `applicant`,
`date_applied` and `status` may be supplied but are read-only fields. -/
structure ApplicationBody where
  job : Nat
  applicant : Option Nat
  date_applied : Option Nat
  status : Option String
  cover_letter : Option String
deriving DecidableEq, Repr

/-- `ApplicationSerializer` validated data: DRF drops the read-only fields
`('applicant', 'date_applied', 'status')`, leaving `job` and `cover_letter`. -/
structure ApplicationValidated where
  job : Nat
  cover_letter : Option String
deriving DecidableEq, Repr

/-- Validation of an application body: keep only the writable fields. -/
def validateApplicationBody (b : ApplicationBody) : ApplicationValidated :=
  ⟨b.job, b.cover_letter⟩

/-- `ApplicationViewSet.perform_create`: `serializer.save(applicant=request.user)`;
the model defaults supply `date_applied` (`timezone.now`, here `now`) and
`status = 'PENDING'`. -/
def ApplicationViewSet.perform_create (request_user now next_id : Nat)
    (b : ApplicationBody) (t : List Application) : Except String (List Application) :=
  insertApplication t
    ⟨next_id, (validateApplicationBody b).job, request_user, now, "PENDING",
      (validateApplicationBody b).cover_letter⟩

/-- `ModelSerializer.update` on an application: only the writable validated
fields (`job`, `cover_letter`) are written onto the instance. -/
def applicationUpdate (a : Application) (b : ApplicationBody) : Application :=
  ⟨a.id, (validateApplicationBody b).job, a.applicant, a.date_applied, a.status,
    (validateApplicationBody b).cover_letter⟩

/-- Client-supplied body of a saved-job create request; `user` and `saved_at`
are read-only fields of `SavedJobSerializer`. -/
structure SavedJobBody where
  job : Nat
  user : Option Nat
  saved_at : Option Nat
deriving DecidableEq, Repr

/-- `SavedJobViewSet.perform_create`: `serializer.save(user=request.user)`; the
model default supplies `saved_at`. -/
def SavedJobViewSet.perform_create (request_user now next_id : Nat)
    (b : SavedJobBody) (t : List SavedJob) : Except String (List SavedJob) :=
  insertSavedJob t ⟨next_id, request_user, b.job, now⟩

/-- Client-supplied body of a profile create request; `user` is not even a
serializer field of `UserProfileSerializer` and is ignored. -/
structure UserProfileBody where
  user : Option Nat
  bio : String
  phone_number : String
  skill_names : Option (List String)
  resume_url : Option String
  current_title : String
deriving DecidableEq, Repr

/-- `UserProfileViewSet.perform_create`: `serializer.save(user=request.user)`;
`UserProfileSerializer.create` then runs the skill get-or-create loop. -/
def UserProfileViewSet.perform_create (request_user next_id : Nat)
    (b : UserProfileBody) (profiles : List UserProfile) (skills : SkillTable) :
    Except String (List UserProfile × SkillTable) :=
  let base : UserProfile :=
    ⟨next_id, request_user, b.bio, b.phone_number, [], b.resume_url, b.current_title⟩
  match profileSetSkills base skills b.skill_names with
  | Except.error e => Except.error e
  | Except.ok (p, t') => Except.ok (profiles ++ [p], t')

/- ===== Routing and permissions (urls.py, views.py, settings.py) ===== -/

/-- The five standard viewset actions generated by the DefaultRouter. -/
inductive Action
  | list
  | retrieve
  | create
  | update
  | delete
deriving DecidableEq, Repr

/-- The ten resource collections registered on the router in `jobs/urls.py`. -/
inductive Resource
  | jobs
  | companies
  | categories
  | profiles
  | applications
  | saved_jobs
  | industries
  | job_types
  | locations
  | skills
deriving DecidableEq, Repr

/-- Actions provided by each registered viewset: a `ModelViewSet` (jobs,
profiles, applications, saved-jobs, skills) provides all five; a
`ReadOnlyModelViewSet` (companies, categories, industries, job-types,
locations) provides only list and retrieve. -/
def supportsAction : Resource → Action → Bool
  | .jobs, _ => true
  | .profiles, _ => true
  | .applications, _ => true
  | .saved_jobs, _ => true
  | .skills, _ => true
  | _, .list => true
  | _, .retrieve => true
  | _, _ => false

/-- The DRF permission policies occurring in this project. -/
inductive Permission
  | allowAny
  | isAuthenticated
  | isAuthenticatedOrReadOnly
deriving DecidableEq, Repr

/-- The effective permission class of each viewset: `SkillViewSet` sets
`AllowAny`, `JobViewSet` sets `IsAuthenticatedOrReadOnly`, the profile,
application and saved-job viewsets set `IsAuthenticated`, and the remaining
viewsets inherit the settings default `IsAuthenticatedOrReadOnly`. -/
def permissionPolicy : Resource → Permission
  | .skills => .allowAny
  | .jobs => .isAuthenticatedOrReadOnly
  | .profiles => .isAuthenticated
  | .applications => .isAuthenticated
  | .saved_jobs => .isAuthenticated
  | _ => .isAuthenticatedOrReadOnly

/-- Whether an action is a safe (read) action. -/
def isReadAction : Action → Bool
  | .list => true
  | .retrieve => true
  | _ => false

/-- Whether a permission policy lets a request through. -/
def permits (p : Permission) (is_authenticated : Bool) (a : Action) : Bool :=
  match p with
  | .allowAny => true
  | .isAuthenticated => is_authenticated
  | .isAuthenticatedOrReadOnly => is_authenticated || isReadAction a

/-- A request reaches its handler iff the route exists and the viewset's
permission policy lets it through. -/
def requestPermitted (r : Resource) (is_authenticated : Bool) (a : Action) : Bool :=
  supportsAction r a && permits (permissionPolicy r) is_authenticated a

/- ===== Helper lemmas ===== -/

/-- Membership in `JobViewSet.get_queryset`, characterised filter by filter. -/
theorem mem_job_get_queryset (companies : List Company) (jobs : List Job)
    (p : JobQueryParams) (j : Job) :
    j ∈ JobViewSet.get_queryset companies jobs p ↔
      (j ∈ jobs ∧ j.is_active = true ∧
        (∀ s, p.q = some s → jobMatchesQ companies j s = true) ∧
        (∀ c, p.category = some c → j.category = some c) ∧
        (∀ ty, p.type = some ty → j.job_type = ty) ∧
        (∀ l, p.location = some l → j.location = l)) := by
  obtain ⟨q, cat, ty, loc⟩ := p
  cases q <;> cases cat <;> cases ty <;> cases loc <;>
    simp [JobViewSet.get_queryset, List.mem_filter, and_assoc] <;> tauto

/-- In a list where no two distinct elements can both satisfy `p`, the filter
by `p` is the singleton of any member satisfying `p`. -/
theorem filter_eq_singleton_of_pairwise {α : Type} (p : α → Bool) :
    ∀ t : List α, t.Pairwise (fun a b => ¬ (p a = true ∧ p b = true)) →
      ∀ r ∈ t, p r = true → t.filter p = [r] := by
  intro t
  induction t with
  | nil => intro _ r hr _; exact absurd hr (List.not_mem_nil r)
  | cons h tl ih =>
    intro hpw r hr hpr
    rw [List.pairwise_cons] at hpw
    obtain ⟨h1, h2⟩ := hpw
    rcases List.mem_cons.mp hr with rfl | hrtl
    · have htl : tl.filter p = [] := by
        rw [List.filter_eq_nil_iff]
        intro x hx hpx
        exact h1 x hx ⟨hpr, hpx⟩
      simp [List.filter_cons, hpr, htl]
    · have hph : ¬ p h = true := fun hc => h1 r hrtl ⟨hc, hpr⟩
      simp only [List.filter_cons, if_neg hph]
      exact ih h2 r hrtl hpr

/-- The profile returned by `profileSetSkills` keeps its owning user. -/
theorem profileSetSkills_user (p : UserProfile) (t : SkillTable)
    (sn : Option (List String)) (q : UserProfile) (t' : SkillTable)
    (h : profileSetSkills p t sn = Except.ok (q, t')) : q.user = p.user := by
  cases sn with
  | none =>
    simp only [profileSetSkills] at h
    simp at h
    obtain ⟨h1, _⟩ := h
    subst h1
    rfl
  | some names =>
    simp only [profileSetSkills] at h
    cases hps : processSkillNames t names with
    | error e => rw [hps] at h; simp at h
    | ok r =>
      obtain ⟨t2, objs⟩ := r
      rw [hps] at h
      simp at h
      obtain ⟨h1, _⟩ := h
      subst h1
      rfl

/- ===== Claim theorems ===== -/

/-- Claim C1 (code bug, evaluated at the failing input): the skill
get-or-create looks rows up by the stripped-and-lowercased name but creates
them with the merely stripped name, so "Python" and "python" — equal after
stripping and lowercasing — produce two distinct Skill rows in one submission,
and re-submitting ["Python"] to the state it created raises IntegrityError
instead of leaving the profile's skill set and the Skill table unchanged. -/
theorem C1_skill_normalization_failing_input :
    normalizeSkillName "Python" = normalizeSkillName "python" ∧
    profileSetSkills ⟨1, 1, "", "", [], none, ""⟩ ⟨0, []⟩ (some ["Python", "python"]) =
      Except.ok (⟨1, 1, "", "", [0, 1], none, ""⟩, ⟨2, [⟨0, "Python"⟩, ⟨1, "python"⟩]⟩) ∧
    profileSetSkills ⟨1, 1, "", "", [], none, ""⟩ ⟨0, []⟩ (some ["Python"]) =
      Except.ok (⟨1, 1, "", "", [0], none, ""⟩, ⟨1, [⟨0, "Python"⟩]⟩) ∧
    profileSetSkills ⟨1, 1, "", "", [0], none, ""⟩ ⟨1, [⟨0, "Python"⟩]⟩ (some ["Python"]) =
      Except.error "IntegrityError" := by
  refine ⟨?_, ?_, ?_, ?_⟩ <;> rfl

/-- Claim C2: the job list returns exactly the active jobs satisfying every
provided filter — `q` as a case-insensitive substring of title, description or
company name, and `category` / `type` / `location` as foreign-key id
equalities; omitted parameters impose no constraint. -/
theorem C2_job_list_filtering (companies : List Company) (jobs : List Job)
    (p : JobQueryParams) (j : Job) :
    j ∈ JobViewSet.get_queryset companies jobs p ↔
      (j ∈ jobs ∧ j.is_active = true ∧
        (∀ s, p.q = some s → jobMatchesQ companies j s = true) ∧
        (∀ c, p.category = some c → j.category = some c) ∧
        (∀ ty, p.type = some ty → j.job_type = ty) ∧
        (∀ l, p.location = some l → j.location = l)) :=
  mem_job_get_queryset companies jobs p j

/-- Claim C3: for every authenticated user the profile, application and
saved-job list and retrieve operations return exactly the records owned by the
requesting user. -/
theorem C3_ownership_scoped (u : Nat) (profiles : List UserProfile)
    (apps : List Application) (saved : List SavedJob) :
    (∀ p, p ∈ UserProfileViewSet.get_queryset true u profiles ↔
      (p ∈ profiles ∧ p.user = u)) ∧
    (∀ pk p, UserProfileViewSet.retrieve true u profiles pk = some p → p.user = u) ∧
    (∀ a, a ∈ ApplicationViewSet.get_queryset u apps ↔ (a ∈ apps ∧ a.applicant = u)) ∧
    (∀ pk a, ApplicationViewSet.retrieve u apps pk = some a → a.applicant = u) ∧
    (∀ s, s ∈ SavedJobViewSet.get_queryset u saved ↔ (s ∈ saved ∧ s.user = u)) ∧
    (∀ pk s, SavedJobViewSet.retrieve u saved pk = some s → s.user = u) := by
  refine ⟨?_, ?_, ?_, ?_, ?_, ?_⟩
  · intro p
    simp [UserProfileViewSet.get_queryset, List.mem_filter]
  · intro pk p hp
    have hmem := List.mem_of_find?_eq_some hp
    simp [UserProfileViewSet.get_queryset, List.mem_filter] at hmem
    exact hmem.2
  · intro a
    simp [ApplicationViewSet.get_queryset, List.mem_filter]
  · intro pk a ha
    have hmem := List.mem_of_find?_eq_some ha
    simp [ApplicationViewSet.get_queryset, List.mem_filter] at hmem
    exact hmem.2
  · intro s
    simp [SavedJobViewSet.get_queryset, List.mem_filter]
  · intro pk s hs
    have hmem := List.mem_of_find?_eq_some hs
    simp [SavedJobViewSet.get_queryset, List.mem_filter] at hmem
    exact hmem.2

/-- Witness for C3 at concrete singleton tables. -/
theorem C3_witness :
    (⟨1, 7, "", "", [], none, ""⟩ : UserProfile).user = 7 ∧
    (⟨1, 2, 7, 0, "PENDING", none⟩ : Application).applicant = 7 ∧
    (⟨1, 7, 2, 0⟩ : SavedJob).user = 7 :=
  ⟨(C3_ownership_scoped 7 [⟨1, 7, "", "", [], none, ""⟩] [] []).2.1
      1 ⟨1, 7, "", "", [], none, ""⟩ (by decide),
   (C3_ownership_scoped 7 [] [⟨1, 2, 7, 0, "PENDING", none⟩] []).2.2.2.1
      1 ⟨1, 2, 7, 0, "PENDING", none⟩ (by decide),
   (C3_ownership_scoped 7 [] [] [⟨1, 7, 2, 0⟩]).2.2.2.2.2
      1 ⟨1, 7, 2, 0⟩ (by decide)⟩

/-- Claim C4: when the requesting user has saved the given job, unsave deletes
exactly that SavedJob row and answers 204; otherwise it answers 404 and leaves
the table unchanged. -/
theorem C4_unsave_total_atomic (u job_id : Nat) (t : List SavedJob)
    (hpair : savedPairUnique t) (hid : savedIdUnique t) :
    (∀ r ∈ t, r.user = u → r.job = job_id →
      ∃ t', SavedJobViewSet.unsave u job_id t = Except.ok (t', 204) ∧
        r ∉ t' ∧ (∀ x, x ∈ t' ↔ (x ∈ t ∧ x ≠ r))) ∧
    ((∀ r ∈ t, ¬ (r.user = u ∧ r.job = job_id)) →
      SavedJobViewSet.unsave u job_id t = Except.ok (t, 404)) := by
  constructor
  · intro r hr hru hrj
    have hpw : t.Pairwise (fun a b =>
        ¬ ((a.user == u && a.job == job_id) = true ∧
           (b.user == u && b.job == job_id) = true)) := by
      refine hpair.imp ?_
      intro a b hab hcontra
      obtain ⟨ha, hb⟩ := hcontra
      simp only [Bool.and_eq_true, beq_iff_eq] at ha hb
      exact hab ⟨ha.1.trans hb.1.symm, ha.2.trans hb.2.symm⟩
    have hfil : t.filter (fun r => r.user == u && r.job == job_id) = [r] :=
      filter_eq_singleton_of_pairwise _ t hpw r hr (by simp [hru, hrj])
    refine ⟨t.filter (fun x => x.id != r.id), ?_, ?_, ?_⟩
    · unfold SavedJobViewSet.unsave
      rw [hfil]
    · simp [List.mem_filter]
    · intro x
      constructor
      · intro hx
        rw [List.mem_filter] at hx
        refine ⟨hx.1, fun hxr => ?_⟩
        rw [hxr] at hx
        simp at hx
      · rintro ⟨hxt, hxr⟩
        rw [List.mem_filter]
        refine ⟨hxt, ?_⟩
        have hne : x.id ≠ r.id :=
          List.Pairwise.forall (fun a b hab => hab.symm) hid hxt hr hxr
        simpa using hne
  · intro hnone
    have hfil : t.filter (fun r => r.user == u && r.job == job_id) = [] := by
      rw [List.filter_eq_nil_iff]
      intro a ha h
      rw [Bool.and_eq_true, beq_iff_eq, beq_iff_eq] at h
      exact hnone a ha h
    unfold SavedJobViewSet.unsave
    rw [hfil]

/-- Witness for C4: deletion of the one saved row, and 404 on a miss. -/
theorem C4_witness :
    (∃ t', SavedJobViewSet.unsave 1 2 [⟨0, 1, 2, 5⟩] = Except.ok (t', 204) ∧
      (⟨0, 1, 2, 5⟩ : SavedJob) ∉ t' ∧
      (∀ x, x ∈ t' ↔ (x ∈ [(⟨0, 1, 2, 5⟩ : SavedJob)] ∧ x ≠ ⟨0, 1, 2, 5⟩))) ∧
    SavedJobViewSet.unsave 3 2 [⟨0, 1, 2, 5⟩] = Except.ok ([⟨0, 1, 2, 5⟩], 404) :=
  ⟨(C4_unsave_total_atomic 1 2 [⟨0, 1, 2, 5⟩] (by decide) (by decide)).1
      ⟨0, 1, 2, 5⟩ (by decide) rfl rfl,
   (C4_unsave_total_atomic 3 2 [⟨0, 1, 2, 5⟩] (by decide) (by decide)).2 (by decide)⟩

/-- Claim C5: the `(job, applicant)` and `(user, job)` uniqueness invariants
hold in every reachable state: a duplicate insert fails with IntegrityError and
a successful insert preserves the invariant. -/
theorem C5_uniqueness_invariants :
    (∀ (t : List Application) (a : Application), appPairUnique t →
      ((∃ b ∈ t, b.job = a.job ∧ b.applicant = a.applicant) →
        insertApplication t a = Except.error "IntegrityError") ∧
      (∀ t', insertApplication t a = Except.ok t' → appPairUnique t')) ∧
    (∀ (t : List SavedJob) (s : SavedJob), savedPairUnique t →
      ((∃ b ∈ t, b.user = s.user ∧ b.job = s.job) →
        insertSavedJob t s = Except.error "IntegrityError") ∧
      (∀ t', insertSavedJob t s = Except.ok t' → savedPairUnique t')) := by
  constructor
  · intro t a hinv
    constructor
    · rintro ⟨b, hb, hbj, hba⟩
      have hany : t.any (fun x => x.job == a.job && x.applicant == a.applicant) = true :=
        List.any_eq_true.mpr ⟨b, hb, by simp [hbj, hba]⟩
      unfold insertApplication
      rw [if_pos hany]
    · intro t' ht'
      unfold insertApplication at ht'
      split at ht'
      · exact absurd ht' (by simp)
      · rename_i hany
        injection ht' with ht'
        subst ht'
        show List.Pairwise _ (t ++ [a])
        rw [List.pairwise_append]
        refine ⟨hinv, by simp, ?_⟩
        intro x hx y hy
        rw [List.mem_singleton] at hy
        subst hy
        rintro ⟨hxj, hxa⟩
        exact hany (List.any_eq_true.mpr ⟨x, hx, by simp [hxj, hxa]⟩)
  · intro t s hinv
    constructor
    · rintro ⟨b, hb, hbu, hbj⟩
      have hany : t.any (fun x => x.user == s.user && x.job == s.job) = true :=
        List.any_eq_true.mpr ⟨b, hb, by simp [hbu, hbj]⟩
      unfold insertSavedJob
      rw [if_pos hany]
    · intro t' ht'
      unfold insertSavedJob at ht'
      split at ht'
      · exact absurd ht' (by simp)
      · rename_i hany
        injection ht' with ht'
        subst ht'
        show List.Pairwise _ (t ++ [s])
        rw [List.pairwise_append]
        refine ⟨hinv, by simp, ?_⟩
        intro x hx y hy
        rw [List.mem_singleton] at hy
        subst hy
        rintro ⟨hxu, hxj⟩
        exact hany (List.any_eq_true.mpr ⟨x, hx, by simp [hxu, hxj]⟩)

/-- Witness for C5: a duplicate application insert fails; a fresh saved-job
insert preserves the invariant. -/
theorem C5_witness :
    insertApplication [⟨0, 1, 2, 0, "PENDING", none⟩] ⟨1, 1, 2, 0, "PENDING", none⟩ =
      Except.error "IntegrityError" ∧
    savedPairUnique [⟨0, 1, 2, 3⟩] :=
  ⟨(C5_uniqueness_invariants.1 [⟨0, 1, 2, 0, "PENDING", none⟩]
      ⟨1, 1, 2, 0, "PENDING", none⟩ (by decide)).1
      ⟨⟨0, 1, 2, 0, "PENDING", none⟩, by decide, rfl, rfl⟩,
   (C5_uniqueness_invariants.2 [] ⟨0, 1, 2, 3⟩ (by decide)).2 [⟨0, 1, 2, 3⟩] rfl⟩

/-- Claim C6 counterexample: the companies collection is served by a
`ReadOnlyModelViewSet`, so it does not support create — the claim that all ten
collections support all five operations is false at this input. -/
theorem C6_counterexample : supportsAction Resource.companies Action.create = false := rfl

/-- Claim C6 (amended): every collection supports list and retrieve; create,
update and delete are supported exactly by the `ModelViewSet` collections —
jobs, profiles, applications, saved-jobs and skills. -/
theorem C6_amended_actions (r : Resource) (a : Action) :
    supportsAction r a = true ↔
      (a = Action.list ∨ a = Action.retrieve ∨ r = Resource.jobs ∨
        r = Resource.profiles ∨ r = Resource.applications ∨
        r = Resource.saved_jobs ∨ r = Resource.skills) := by
  cases r <;> cases a <;> decide

/-- Claim C7 counterexample: the profiles list route exists but an
unauthenticated list request on it is rejected (`IsAuthenticated`), so reads
are not open on every collection. -/
theorem C7_counterexample :
    supportsAction Resource.profiles Action.list = true ∧
    requestPermitted Resource.profiles false Action.list = false := by decide

/-- Claim C7 (amended): authenticated requests always pass the permission
check; an unauthenticated request passes iff the collection is skills (whose
viewset sets `AllowAny`, so even writes are open) or the action is a read on a
collection other than profiles, applications and saved-jobs (which set
`IsAuthenticated` and so reject even unauthenticated reads). -/
theorem C7_amended_permissions (r : Resource) (a : Action) :
    permits (permissionPolicy r) true a = true ∧
    (permits (permissionPolicy r) false a = true ↔
      (r = Resource.skills ∨
        (isReadAction a = true ∧ r ≠ Resource.profiles ∧ r ≠ Resource.applications ∧
          r ≠ Resource.saved_jobs))) := by
  cases r <;> cases a <;> decide

/-- Claim C8: the job list under any filters, and job retrieve, only ever
yield jobs with `is_active = true`; an inactive job is unreachable through the
jobs resource. -/
theorem C8_inactive_jobs_unreachable (companies : List Company) (jobs : List Job)
    (p : JobQueryParams) :
    (∀ j ∈ JobViewSet.get_queryset companies jobs p, j.is_active = true) ∧
    (∀ pk j, JobViewSet.retrieve companies jobs p pk = some j → j.is_active = true) := by
  constructor
  · intro j hj
    exact ((mem_job_get_queryset companies jobs p j).mp hj).2.1
  · intro pk j hj
    have hmem := List.mem_of_find?_eq_some hj
    exact ((mem_job_get_queryset companies jobs p j).mp hmem).2.1

/-- Witness for C8: a concrete retrieve through the jobs resource. -/
theorem C8_witness : (⟨1, "t", "d", 1, 1, none, 1, 0, 0, 0, true⟩ : Job).is_active = true :=
  (C8_inactive_jobs_unreachable [] [⟨1, "t", "d", 1, 1, none, 1, 0, 0, 0, true⟩]
      ⟨none, none, none, none⟩).2 1 ⟨1, "t", "d", 1, 1, none, 1, 0, 0, 0, true⟩ (by decide)

/-- Claim C9: the stored owner of a created application, saved-job or profile
is the authenticated requesting user; an applicant or user value supplied in
the request body is ignored, so two bodies differing only in that field create
the same record. -/
theorem C9_owner_independent_of_body (request_user now next_id : Nat) :
    (∀ (b : ApplicationBody) (x y : Option Nat) (t : List Application),
      ApplicationViewSet.perform_create request_user now next_id
          ⟨b.job, x, b.date_applied, b.status, b.cover_letter⟩ t =
        ApplicationViewSet.perform_create request_user now next_id
          ⟨b.job, y, b.date_applied, b.status, b.cover_letter⟩ t) ∧
    (∀ (b : ApplicationBody) (t t' : List Application),
      ApplicationViewSet.perform_create request_user now next_id b t = Except.ok t' →
      ∀ a, a ∈ t' → a ∉ t → a.applicant = request_user) ∧
    (∀ (b : SavedJobBody) (x y : Option Nat) (t : List SavedJob),
      SavedJobViewSet.perform_create request_user now next_id ⟨b.job, x, b.saved_at⟩ t =
        SavedJobViewSet.perform_create request_user now next_id ⟨b.job, y, b.saved_at⟩ t) ∧
    (∀ (b : SavedJobBody) (t t' : List SavedJob),
      SavedJobViewSet.perform_create request_user now next_id b t = Except.ok t' →
      ∀ s, s ∈ t' → s ∉ t → s.user = request_user) ∧
    (∀ (b : UserProfileBody) (x y : Option Nat) (profiles : List UserProfile)
        (skills : SkillTable),
      UserProfileViewSet.perform_create request_user next_id
          ⟨x, b.bio, b.phone_number, b.skill_names, b.resume_url, b.current_title⟩
          profiles skills =
        UserProfileViewSet.perform_create request_user next_id
          ⟨y, b.bio, b.phone_number, b.skill_names, b.resume_url, b.current_title⟩
          profiles skills) ∧
    (∀ (b : UserProfileBody) (profiles : List UserProfile) (skills : SkillTable) out,
      UserProfileViewSet.perform_create request_user next_id b profiles skills =
        Except.ok out →
      ∀ p, p ∈ out.1 → p ∉ profiles → p.user = request_user) := by
  refine ⟨?_, ?_, ?_, ?_, ?_, ?_⟩
  · intro b x y t
    rfl
  · intro b t t' h a hat' hnat
    unfold ApplicationViewSet.perform_create insertApplication at h
    split at h
    · exact absurd h (by simp)
    · injection h with h
      subst h
      rcases List.mem_append.mp hat' with hL | hR
      · exact absurd hL hnat
      · rw [List.mem_singleton] at hR
        subst hR
        rfl
  · intro b x y t
    rfl
  · intro b t t' h s hst' hnst
    unfold SavedJobViewSet.perform_create insertSavedJob at h
    split at h
    · exact absurd h (by simp)
    · injection h with h
      subst h
      rcases List.mem_append.mp hst' with hL | hR
      · exact absurd hL hnst
      · rw [List.mem_singleton] at hR
        subst hR
        rfl
  · intro b x y profiles skills
    rfl
  · intro b profiles skills out h p hp hnp
    unfold UserProfileViewSet.perform_create at h
    cases hps : profileSetSkills
        ⟨next_id, request_user, b.bio, b.phone_number, [], b.resume_url, b.current_title⟩
        skills b.skill_names with
    | error e =>
      simp [hps] at h
    | ok pr =>
      obtain ⟨prof, st⟩ := pr
      simp only [hps] at h
      simp at h
      rw [← h] at hp
      simp only [List.mem_append] at hp
      rcases hp with hL | hR
      · exact absurd hL hnp
      · rw [List.mem_singleton] at hR
        subst hR
        exact profileSetSkills_user _ _ _ _ _ hps

/-- Witness for C9: concrete creates whose bodies carry a bogus owner id 3,
while the stored rows are owned by the requesting user 7. -/
theorem C9_witness :
    (⟨5, 1, 7, 9, "PENDING", none⟩ : Application).applicant = 7 ∧
    (⟨5, 7, 1, 9⟩ : SavedJob).user = 7 ∧
    (⟨5, 7, "", "", [], none, ""⟩ : UserProfile).user = 7 :=
  ⟨(C9_owner_independent_of_body 7 9 5).2.1 ⟨1, some 3, none, none, none⟩ []
      [⟨5, 1, 7, 9, "PENDING", none⟩] rfl ⟨5, 1, 7, 9, "PENDING", none⟩
      (by decide) (by decide),
   (C9_owner_independent_of_body 7 9 5).2.2.2.1 ⟨1, some 3, none⟩ []
      [⟨5, 7, 1, 9⟩] rfl ⟨5, 7, 1, 9⟩ (by decide) (by decide),
   (C9_owner_independent_of_body 7 9 5).2.2.2.2.2 ⟨some 3, "", "", none, none, ""⟩ []
      ⟨0, []⟩ ([⟨5, 7, "", "", [], none, ""⟩], ⟨0, []⟩) rfl
      ⟨5, 7, "", "", [], none, ""⟩ (by decide) (by decide)⟩

/-- Claim C10: an application created through the API has status `PENDING`,
and updates leave `status`, `applicant` and `date_applied` unchanged no matter
what the request body supplies. -/
theorem C10_application_immutable_fields (request_user now next_id : Nat) :
    (∀ (b : ApplicationBody) (t t' : List Application),
      ApplicationViewSet.perform_create request_user now next_id b t = Except.ok t' →
      ∀ a, a ∈ t' → a ∉ t → a.status = "PENDING") ∧
    (∀ (a : Application) (b : ApplicationBody),
      (applicationUpdate a b).status = a.status ∧
      (applicationUpdate a b).applicant = a.applicant ∧
      (applicationUpdate a b).date_applied = a.date_applied) := by
  constructor
  · intro b t t' h a hat' hnat
    unfold ApplicationViewSet.perform_create insertApplication at h
    split at h
    · exact absurd h (by simp)
    · injection h with h
      subst h
      rcases List.mem_append.mp hat' with hL | hR
      · exact absurd hL hnat
      · rw [List.mem_singleton] at hR
        subst hR
        rfl
  · intro a b
    exact ⟨rfl, rfl, rfl⟩

/-- Witness for C10: a create whose body claims status ACCEPTED still stores
PENDING. -/
theorem C10_witness : (⟨5, 1, 7, 9, "PENDING", none⟩ : Application).status = "PENDING" :=
  (C10_application_immutable_fields 7 9 5).1 ⟨1, none, none, some "ACCEPTED", none⟩ []
    [⟨5, 1, 7, 9, "PENDING", none⟩] rfl ⟨5, 1, 7, 9, "PENDING", none⟩
    (by decide) (by decide)

end JobBoard
